import Mathlib

/-!
Verification development for the Container model of layer-websdk
(`src/models/container.js`).

The Container class is embedded shallowly: the mutable JS instance becomes a
`Container` structure, and every method becomes a function
`Container → args → Container × List Effect`, where the effect list records, in
emission order, the externally observable actions of the call (event triggers,
registry calls, network request descriptors, destruction, …).

Code of the repository that `container.js` calls but that is not part of the
given source (syncable.js, root.js, client-utils.js, const.js, the client) is
modelled from the specification; every such definition carries a doc comment
starting with `Modelled from the spec:`.
-/

namespace Layer

/-- Sync states of the per-entity lifecycle (spec §3 / §4.2):
`NEW → SYNCING → SYNCED`, with `SYNCED ⇄ SAVING_PATCH` for metadata edits. -/
inductive SyncState where
  | NEW
  | SYNCING
  | SYNCED
  | SAVING_PATCH
deriving DecidableEq, Repr

/-- Metadata values: per the data model, a metadata tree is a string-keyed
mapping whose leaves are strings or nested mappings.  Key order is kept,
matching JS object insertion order (relevant to `JSON.stringify`). -/
inductive JValue where
  | str (s : String)
  | obj (entries : List (String × JValue))
deriving Repr

/-- Escape a string for JSON serialization (quote and backslash). -/
def escapeJson (s : String) : String :=
  s.data.foldl (fun acc c =>
    if c = '"' then acc ++ "\\\""
    else if c = '\\' then acc ++ "\\\\"
    else acc.push c) ""

mutual

/-- The `JSON.stringify` on the modelled value type, used by `__updateMetadata`'s
changed-value comparison. -/
def stringify : JValue → String
  | JValue.str s => "\"" ++ escapeJson s ++ "\""
  | JValue.obj entries => "\x7b" ++ stringifyEntries entries ++ "\x7d"

/-- Serialize the entries of a JSON object, comma separated. -/
def stringifyEntries : List (String × JValue) → String
  | [] => ""
  | [(k, v)] => "\"" ++ escapeJson k ++ "\":" ++ stringify v
  | (k, v) :: rest =>
      "\"" ++ escapeJson k ++ "\":" ++ stringify v ++ "," ++ stringifyEntries rest

end

/-- Write `v` at the dotted path `path` (already split into segments) inside a
metadata tree, creating intermediate objects for missing keys, as the
layer-patch set operation does.  A set whose path traverses a leaf leaves the
tree unchanged (the codec reports `InvalidPathError` there; no claim depends on
it). -/
def jSet : JValue → List String → JValue → JValue
  | _, [], v => v
  | JValue.str s, _ :: _, _ => JValue.str s
  | JValue.obj kvs, k :: rest, v =>
      if (kvs.lookup k).isSome then
        JValue.obj (kvs.map fun p =>
          if p.1 = k then (k, jSet ((kvs.lookup k).getD (JValue.obj [])) rest v) else p)
      else
        JValue.obj (kvs ++ [(k, jSet (JValue.obj []) rest v)])

/-- Remove the key at the dotted path `path` from a metadata tree; a missing
path is a no-op, as the layer-patch delete operation specifies. -/
def jDelete : JValue → List String → JValue
  | m, [] => m
  | JValue.obj kvs, [k] => JValue.obj (kvs.filter fun p => p.1 ≠ k)
  | JValue.obj kvs, k :: rest =>
      JValue.obj (kvs.map fun p => if p.1 = k then (k, jDelete p.2 rest) else p)
  | m, _ => m

/-- A layer-patch operation as built by `setMetadataProperties` /
`deleteMetadataProperties`: `\x7b operation, property, value? \x7d`. -/
structure PatchOp where
  operation : String
  property : String
  value : Option JValue := none

/-- The `data` object of a transport result.  On success it is the server's
description of the container (`id`, `url`, `created_at`, `metadata`); on
failure its `id` field holds the error code (`"conflict"`,
`"authentication_required"`, …). -/
structure SData where
  id : String := ""
  url : String := ""
  created_at : Nat := 0
  metadata : JValue := JValue.obj []

/-- A transport completion `\x7b success, data \x7d` handed to the callbacks. -/
structure CreateResult where
  success : Bool
  data : SData

/-- Payload of a server-pushed delete event: `\x7b mode, from_position \x7d`. -/
structure WebsocketDeleteData where
  mode : String
  from_position : Option Nat := none

/-- The plain object returned by `toObject()`.  `serial` models the JS object
identity of the POJO itself and `metadataSerial` the identity of its cloned
`metadata` field, so that sharing/freshness of heap objects is expressible in
the pure embedding. -/
structure Pojo where
  serial : Nat
  id : String
  url : String
  createdAt : Option Nat
  metadata : JValue
  metadataSerial : Nat

/-- Externally observable actions of a Container method, recorded in emission
order. -/
inductive Effect where
  /-- The `client._triggerAsync('state-change', \x7bstarted/ended, type, telemetryId, id\x7d)`. -/
  | stateChange (started : Bool) (type telemetryId : String) (id : String)
  /-- The `client.sendSocketRequest(\x7bmethod, body, sync: \x7bdepends, target\x7d\x7d, …)`. -/
  | socketRequest (method : String) (depends target : String)
  /-- The `client._updateContainerId(this, oldId)` — registry identity remap. -/
  | updateContainerId (oldId newId : String)
  /-- The `this._triggerAsync('…:change', \x7boldValue, newValue, property: 'id'\x7d)`. -/
  | idChange (oldValue newValue : String)
  /-- The `this._triggerAsync('…:change', \x7bproperty: 'metadata', newValue, oldValue, paths\x7d)`. -/
  | metadataChange (newValue oldValue : JValue) (paths : Option (List String))
  /-- The `this._triggerAsync('…:sent', \x7bresult\x7d)`. -/
  | sent (result : String)
  /-- The `this.trigger('…:sent-error', \x7berror\x7d)`. -/
  | sentError (error : SData)
  /-- The `this.destroy()` — teardown of the entity. -/
  | destroyed
  /-- The `this._xhr(\x7burl:'', method:'PATCH', data, headers\x7d, …)` carrying the ops. -/
  | xhrPatch (ops : List PatchOp)
  /-- The `this._load()` — full reload of the resource from the server. -/
  | load
  /-- The `client._purgeMessagesByPosition(conversationId, fromPosition)`. -/
  | purgeMessages (conversationId : String) (fromPosition : Nat)
  /-- The `super._handleWebsocketDelete()` — full local teardown. -/
  | fullTeardown
  /-- The `this._setupMessage(message)` in `send`. -/
  | setupMessage

/-- The Container instance state.  `metadataSerial` models the JS heap identity
of the live `metadata` object and `allocCounter` a fresh-identity supply;
`_toObject` is the `toObject()` cache; `_inLayerParser` is the reentrancy
suppression flag of `__updateMetadata`. -/
structure Container where
  id : String
  url : String := ""
  createdAt : Option Nat := none
  metadata : JValue := JValue.obj []
  metadataSerial : Nat := 0
  syncState : SyncState := SyncState.NEW
  isDestroyed : Bool := false
  _inLayerParser : Bool := false
  _toObject : Option Pojo := none
  allocCounter : Nat := 1

/-- The `Container.CREATED` — outcome tag of `…:sent` events. -/
def CREATED : String := "Created"

/-- The `Container.FOUND` — outcome tag of `…:sent` events. -/
def FOUND : String := "Found"

/-- The `Container.FOUND_WITHOUT_REQUESTED_METADATA` — outcome tag of `…:sent`
events. -/
def FOUND_WITHOUT_REQUESTED_METADATA : String := "FoundMismatch"

/-- Split a character list at every occurrence of the separator (the
semantics of JS `String.prototype.split` with a single-character
separator). -/
def splitChars (sep : Char) : List Char → List (List Char)
  | [] => [[]]
  | c :: rest =>
      if c = sep then [] :: splitChars sep rest
      else
        match splitChars sep rest with
        | [] => [[c]]
        | g :: gs => (c :: g) :: gs

/-- Modelled from the spec: `Util.typeFromID` (client-utils.js is not in src/)
derives the resource kind from its id — the path segment before the last one of
an id such as `layer:///conversations/uuid`. -/
def typeFromID (id : String) : String :=
  String.mk (((splitChars '/' id.data).dropLast).getLastD [])

/-- JS `s.indexOf(pre) === 0`: the string `s` starts with the substring
`pre`. -/
def strStartsWith (pre s : String) : Bool :=
  pre.data.isPrefixOf s.data

/-- Modelled from the spec: `Syncable._setSyncing` (syncable.js is not in
src/) moves the sync state machine to `SYNCING`. -/
def _setSyncing (st : Container) : Container :=
  { st with syncState := SyncState.SYNCING }

/-- Modelled from the spec: `Syncable._setSynced` (syncable.js is not in src/)
moves the sync state machine to `SYNCED`. -/
def _setSynced (st : Container) : Container :=
  { st with syncState := SyncState.SYNCED }

/-- Modelled from the spec: `Syncable.isNew` — the entity is in the `NEW`
state. -/
def isNew (st : Container) : Bool :=
  st.syncState = SyncState.NEW

/-- Modelled from the spec: `Root._clearObject` (root.js is not in src/)
invalidates the `toObject()` cache; `Container._toObject` "caches last result
of toObject()" and a "new object is returned any time any of this object's
properties change". -/
def _clearObject (st : Container) : Container :=
  { st with _toObject := none }

/-- The `Container._triggerAsync` override: clears the `toObject()` cache, then
defers to the base class's deferred event dispatch (modelled as emitting the
event; the deferred queue preserves FIFO order, so emission order is delivery
order). -/
def _triggerAsync (st : Container) (e : Effect) : Container × List Effect :=
  (_clearObject st, [e])

/-- The `Container.trigger` override: clears the `toObject()` cache, then
dispatches the event synchronously. -/
def trigger (st : Container) (e : Effect) : Container × List Effect :=
  (_clearObject st, [e])

/-- Modelled from the spec: `Root.destroy` (root.js is not in src/) —
destruction is terminal and irreversible; sets the `isDestroyed` flag and
tears the entity down. -/
def destroy (st : Container) : Container × List Effect :=
  ({ st with isDestroyed := true }, [Effect.destroyed])

/-- The `Container.__updateMetadata`: hook run on changes of the `metadata`
property.  Suppressed while `_inLayerParser` is set; otherwise fires a
`…:change` event for `metadata` when the JSON-serialized values differ. -/
def __updateMetadata (st : Container) (newValue oldValue : JValue)
    (paths : Option (List String)) : Container × List Effect :=
  if st._inLayerParser then (st, [])
  else if stringify newValue ≠ stringify oldValue then
    _triggerAsync st (Effect.metadataChange newValue oldValue paths)
  else (st, [])

/-- Modelled from the spec: the base class's property setters "automatically
call" the matching `__update` hook (root.js is not in src/).  Assigning a new
object to `this.metadata` stores it (a fresh heap object, hence a fresh
identity serial) and invokes `__updateMetadata` with the new and old values. -/
def assignMetadata (st : Container) (v : JValue) : Container × List Effect :=
  let oldValue := st.metadata
  let st' := { st with
    metadata := v,
    metadataSerial := st.allocCounter,
    allocCounter := st.allocCounter + 1 }
  __updateMetadata st' v oldValue none

/-- The `Container._handlePatchEvent`: server-pushed patch handling — if the first
path starts with the substring `"metadata"` (`paths[0].indexOf('metadata') === 0`),
forward to `__updateMetadata` with the raw path list. -/
def _handlePatchEvent (st : Container) (newValue oldValue : JValue)
    (paths : List String) : Container × List Effect :=
  if strStartsWith "metadata" (paths.headD "") then
    __updateMetadata st newValue oldValue (some paths)
  else (st, [])

/-- The `Container._populateFromServer`: marks the entity synced, adopts the
server id — notifying the registry and firing an `id` change event when it
differs from the local id — then copies `url`, `created_at` and `metadata`
from the server description. -/
def _populateFromServer (st : Container) (container : SData) :
    Container × List Effect :=
  let st1 := _setSynced st
  let id := st1.id
  let st2 := { st1 with id := container.id }
  let r1 : Container × List Effect :=
    if id ≠ st2.id then
      let r := _triggerAsync st2 (Effect.idChange id st2.id)
      (r.1, Effect.updateContainerId id st2.id :: r.2)
    else (st2, [])
  let st3 := { r1.1 with url := container.url, createdAt := some container.created_at }
  let r2 := assignMetadata st3 container.metadata
  (r2.1, r1.2 ++ r2.2)

/-- The `Container._createSuccess`: captures the local id, populates from the
server data, and fires the `…:sent` completion with outcome `CREATED` when the
id did not change and `FOUND` otherwise. -/
def _createSuccess (st : Container) (data : SData) : Container × List Effect :=
  let id := st.id
  let r := _populateFromServer st data
  let r2 := _triggerAsync r.1
    (Effect.sent (if id = r.1.id then CREATED else FOUND))
  (r2.1, r.2 ++ r2.2)

/-- Modelled from the spec: `_createResultConflict` (defined in the subclass,
not in src/) — conflict resolution re-populates local fields from the
authoritative resource description and emits a `sent-error`-free completion. -/
def _createResultConflict (st : Container) (data : SData) :
    Container × List Effect :=
  let r := _populateFromServer st data
  let r2 := _triggerAsync r.1 (Effect.sent FOUND)
  (r2.1, r.2 ++ r2.2)

/-- The `Container._createResult`: always first emits the `state-change` ended
event; then, unless the entity is destroyed, dispatches on success /
conflict / failure, destroying the entity on a non-conflict failure after a
`…:sent-error` event. -/
def _createResult (st : Container) (result : CreateResult) :
    Container × List Effect :=
  let tname := "send_" ++ typeFromID st.id
  let e0 := Effect.stateChange false tname (tname ++ "_time") st.id
  if st.isDestroyed then (st, [e0])
  else if result.success then
    let r := _createSuccess st result.data
    (r.1, e0 :: r.2)
  else if result.data.id = "conflict" then
    let r := _createResultConflict st result.data
    (r.1, e0 :: r.2)
  else
    let r := trigger st (Effect.sentError result.data)
    let r2 := destroy r.1
    (r2.1, e0 :: (r.2 ++ r2.2))

/-- The `Container.send`: if the entity is `NEW`, sets `createdAt` to the current
time, moves to `SYNCING`, emits the `state-change` started event and issues the
create socket request (correlation: `depends`/`target` = resource id); then
optionally sets up an initial message. -/
def send (st : Container) (now : Nat) (message : Bool) :
    Container × List Effect :=
  let r : Container × List Effect :=
    if isNew st then
      let st1 := _setSyncing { st with createdAt := some now }
      let tname := "send_" ++ typeFromID st1.id
      (st1, [Effect.stateChange true tname (tname ++ "_time") st1.id,
             Effect.socketRequest "POST" st1.id st1.id])
    else (st, [])
  if message then (r.1, r.2 ++ [Effect.setupMessage]) else r

/-- Path normalization shared by `setMetadataProperties` and
`deleteMetadataProperties`: if the path is not `"metadata"` and does not
already start with `"metadata."` (`name.indexOf('metadata.') !== 0`), prefix
it with `"metadata."`. -/
def metadataFullName (name : String) : String :=
  if name ≠ "metadata" ∧ strStartsWith "metadata." name = false then
    "metadata." ++ name
  else name

/-- The patch operations built by `setMetadataProperties`: one `set` operation
per entry with a truthy (non-empty) key, property normalized by
`metadataFullName`, input order preserved. -/
def buildSetOps : List (String × JValue) → List PatchOp
  | [] => []
  | p :: rest =>
      if p.1 != "" then
        { operation := "set", property := metadataFullName p.1, value := some p.2 }
          :: buildSetOps rest
      else buildSetOps rest

/-- The patch operations built by `deleteMetadataProperties`: one `delete`
operation per path, property normalized by `metadataFullName`. -/
def buildDeleteOps (props : List String) : List PatchOp :=
  props.map fun property =>
    { operation := "delete", property := metadataFullName property }

/-- Apply one layer-patch operation to the entity: operations rooted under
`metadata` act on the metadata tree (in place — the live metadata object keeps
its identity); `set` writes at the path, `delete` removes it. -/
def applyPatchOp (st : Container) (op : PatchOp) : Container :=
  match (splitChars '.' op.property.data).map String.mk with
  | "metadata" :: rest =>
      if op.operation = "set" then
        { st with metadata := jSet st.metadata rest (op.value.getD (JValue.obj [])) }
      else
        { st with metadata := jDelete st.metadata rest }
  | _ => st

/-- Modelled from the spec: `Util.layerParse` (client-utils.js is not in src/)
applies each patch operation to the target object in order; it runs with the
`_inLayerParser` suppression flag set, so no change events are produced by the
application itself. -/
def layerParse (st : Container) (ops : List PatchOp) : Container :=
  ops.foldl applyPatchOp st

/-- The `Container.setMetadataProperties`: builds the `set` operations, applies
them locally under the `_inLayerParser` suppression flag, and issues the PATCH
request carrying the operations.  The destroyed guard is
`Modelled from the spec:` operations on a destroyed entity are silently
ignored (the guard lives in the base-class code that is not in src/). -/
def setMetadataProperties (st : Container) (props : List (String × JValue)) :
    Container × List Effect :=
  if st.isDestroyed then (st, [])
  else
    let layerPatchOperations := buildSetOps props
    let st := { st with _inLayerParser := true }
    let st := layerParse st layerPatchOperations
    let st := { st with _inLayerParser := false }
    (st, [Effect.xhrPatch layerPatchOperations])

/-- The `Container.deleteMetadataProperties`: builds the `delete` operations,
applies them locally under the `_inLayerParser` suppression flag, and issues
the PATCH request carrying the operations.  The destroyed guard is
`Modelled from the spec:` as in `setMetadataProperties`. -/
def deleteMetadataProperties (st : Container) (props : List String) :
    Container × List Effect :=
  if st.isDestroyed then (st, [])
  else
    let layerPatchOperations := buildDeleteOps props
    let st := { st with _inLayerParser := true }
    let st := layerParse st layerPatchOperations
    let st := { st with _inLayerParser := false }
    (st, [Effect.xhrPatch layerPatchOperations])

/-- Modelled from the spec: `Syncable._load` (syncable.js is not in src/)
"triggers a full reload of the resource from the server to re-derive ground
truth". -/
def _load (st : Container) : Container × List Effect :=
  (st, [Effect.load])

/-- The PATCH completion callback registered by `setMetadataProperties`:
on a failure of a non-destroyed entity whose error is not
`authentication_required`, reload the resource. -/
def setMetadataPropertiesCallback (st : Container) (result : CreateResult) :
    Container × List Effect :=
  if !result.success && !st.isDestroyed &&
      (result.data.id != "authentication_required") then _load st
  else (st, [])

/-- The PATCH completion callback registered by `deleteMetadataProperties`:
on a failure whose error is not `authentication_required`, reload the
resource.  (Unlike its `setMetadataProperties` sibling, it does not test
`isDestroyed`.) -/
def deleteMetadataPropertiesCallback (st : Container) (result : CreateResult) :
    Container × List Effect :=
  if !result.success && (result.data.id != "authentication_required") then
    _load st
  else (st, [])

/-- Modelled from the spec: `Constants.DELETION_MODE.MY_DEVICES` (const.js is
not in src/) — the "remove from my devices only" deletion mode. -/
def DELETION_MODE_MY_DEVICES : String := "my_devices"

/-- Modelled from the spec: `Constants.DELETION_MODE.ALL` (const.js is not in
src/) — the "all participants" deletion mode. -/
def DELETION_MODE_ALL : String := "all_participants"

/-- JS truthiness of the optional `from_position` field: an absent position
and the number `0` are falsy. -/
def truthyPosition : Option Nat → Bool
  | some n => n != 0
  | none => false

/-- Modelled from the spec: `Syncable._handleWebsocketDelete` (syncable.js is
not in src/) — full local teardown of the entity, equivalent to destroy. -/
def superHandleWebsocketDelete (st : Container) : Container × List Effect :=
  ({ st with isDestroyed := true }, [Effect.fullTeardown])

/-- The `Container._handleWebsocketDelete`: if the mode is `MY_DEVICES` and
`data.from_position` is truthy, ask the client for a partial purge of
messages by position; otherwise defer to the base class's full teardown. -/
def _handleWebsocketDelete (st : Container) (data : WebsocketDeleteData) :
    Container × List Effect :=
  if (data.mode == DELETION_MODE_MY_DEVICES) && truthyPosition data.from_position then
    (st, [Effect.purgeMessages st.id (data.from_position.getD 0)])
  else superHandleWebsocketDelete st

/-- The plain object `toObject` builds on a cache miss: a fresh object (fresh
identity serial) holding the public properties, whose `metadata` is the deep
copy `Util.clone(this.metadata)` stored under its own fresh identity. -/
def freshPojo (st : Container) : Pojo :=
  { serial := st.allocCounter,
    id := st.id,
    url := st.url,
    createdAt := st.createdAt,
    metadata := st.metadata,
    metadataSerial := st.allocCounter + 1 }

/-- The `Container.toObject`: returns the cached POJO when present; otherwise
builds a fresh one (`super.toObject()`, `Modelled from the spec:` root.js is
not in src/ — a new plain object holding the public properties) whose
`metadata` field is `Util.clone(this.metadata)` — a structurally equal deep
copy stored as a fresh heap object — and caches it. -/
def toObject (st : Container) : Pojo × Container :=
  match st._toObject with
  | some o => (o, st)
  | none =>
      (freshPojo st,
       { st with
         _toObject := some (freshPojo st),
         allocCounter := st.allocCounter + 2 })

/-- Heap-identity model of an in-place mutation: writing `v` into the object
whose identity is `serial` changes the entity's `metadata` exactly when
`serial` names the entity's live metadata object. -/
def writeAtSerial (st : Container) (serial : Nat) (v : JValue) : Container :=
  if serial = st.metadataSerial then { st with metadata := v } else st

/-- Recognizes the registry identity-remap effect. -/
def isRemapEffect : Effect → Bool
  | Effect.updateContainerId _ _ => true
  | _ => false

/-- Recognizes the `id`-property change event. -/
def isIdChangeEffect : Effect → Bool
  | Effect.idChange _ _ => true
  | _ => false

/-- Recognizes the `…:sent` completion event. -/
def isSentEffect : Effect → Bool
  | Effect.sent _ => true
  | _ => false

/-- Recognizes a `state-change` started event. -/
def isStartedStateChange : Effect → Bool
  | Effect.stateChange started _ _ _ => started
  | _ => false

/-- Recognizes a `state-change` ended event. -/
def isEndedStateChange : Effect → Bool
  | Effect.stateChange started _ _ _ => !started
  | _ => false

/-- The outcome tag carried by the first `…:sent` event of a trace. -/
def sentResult? (tr : List Effect) : Option String :=
  tr.findSome? fun e =>
    match e with
    | Effect.sent r => some r
    | _ => none

/-- A concrete live container (provisional id, `NEW` state) used to
instantiate theorems with hypotheses. -/
def exampleContainer : Container :=
  { id := "layer:///conversations/c1" }

/-- A concrete `NEW` container whose `createdAt` is already set. -/
def exampleNewContainer : Container :=
  { id := "layer:///conversations/c1", createdAt := some 5 }

/-- A concrete container that is already `SYNCED`. -/
def exampleSyncedContainer : Container :=
  { id := "layer:///conversations/c1", syncState := SyncState.SYNCED }

/-- A concrete destroyed container. -/
def exampleDestroyedContainer : Container :=
  { id := "layer:///conversations/c1", syncState := SyncState.SYNCED,
    isDestroyed := true }

theorem strStartsWith_append (pre p : String) :
    strStartsWith pre (pre ++ p) = true := by
  unfold strStartsWith
  rw [String.data_append, List.isPrefixOf_iff_prefix]
  exact List.prefix_append _ _

theorem metadataFullName_idem (name : String) :
    metadataFullName (metadataFullName name) = metadataFullName name := by
  by_cases h : name ≠ "metadata" ∧ strStartsWith "metadata." name = false
  · have h1 : metadataFullName name = "metadata." ++ name := by
      unfold metadataFullName
      rw [if_pos h]
    rw [h1]
    unfold metadataFullName
    rw [if_neg]
    intro hcon
    rw [strStartsWith_append] at hcon
    exact absurd hcon.2 (by decide)
  · have h1 : metadataFullName name = name := by
      unfold metadataFullName
      rw [if_neg h]
    rw [h1]
    exact h1

theorem buildSetOps_map_property (props : List (String × JValue)) :
    (buildSetOps props).map PatchOp.property
      = (props.filter fun p => p.1 != "").map fun p => metadataFullName p.1 := by
  induction props with
  | nil => rfl
  | cons p rest ih =>
      cases hb : (p.1 != "") <;> simp [buildSetOps, List.filter_cons, hb, ih]

theorem buildDeleteOps_map_property (paths : List String) :
    (buildDeleteOps paths).map PatchOp.property = paths.map metadataFullName := by
  unfold buildDeleteOps
  rw [List.map_map]
  rfl

/-- C5: for every path handed to the metadata patch builders, the `property`
of the built operation is `"metadata." ++ path` exactly when the path is
neither `"metadata"` nor already `"metadata."`-prefixed, and the path itself
otherwise; the normalization is idempotent, so an already-prefixed path is
never double-prefixed; and both builders emit properties normalized this way
(`setMetadataProperties` skipping falsy/empty keys). -/
theorem c5_metadata_prefixing (name : String) :
    (name ≠ "metadata" ∧ strStartsWith "metadata." name = false →
      metadataFullName name = "metadata." ++ name)
    ∧ (name = "metadata" ∨ strStartsWith "metadata." name = true →
      metadataFullName name = name)
    ∧ metadataFullName (metadataFullName name) = metadataFullName name
    ∧ (∀ props : List (String × JValue),
        (buildSetOps props).map PatchOp.property
          = (props.filter fun p => p.1 != "").map fun p => metadataFullName p.1)
    ∧ (∀ paths : List String,
        (buildDeleteOps paths).map PatchOp.property = paths.map metadataFullName) := by
  refine ⟨?_, ?_, metadataFullName_idem name, buildSetOps_map_property,
    buildDeleteOps_map_property⟩
  · intro h
    unfold metadataFullName
    rw [if_pos h]
  · intro h
    unfold metadataFullName
    rw [if_neg]
    intro hcon
    rcases h with h | h
    · exact hcon.1 h
    · rw [h] at hcon
      exact absurd hcon.2 (by decide)

/-- Witness for C5 at the concrete paths `"title"` and `"metadata.title"`. -/
theorem c5_metadata_prefixing_witness :
    metadataFullName "title" = "metadata." ++ "title"
    ∧ metadataFullName "metadata.title" = "metadata.title" := by
  constructor
  · exact (c5_metadata_prefixing "title").1 ⟨by decide, by decide⟩
  · exact (c5_metadata_prefixing "metadata.title").2.1 (Or.inr (by decide))

/-- C7 counterexample: a delete push with mode `my_devices` and a *provided*
`from_position` cursor of `0` (falsy in JS) performs a full teardown, not the
partial purge the claim requires for every provided cursor. -/
theorem c7_counterexample :
    (_handleWebsocketDelete exampleContainer
        { mode := "my_devices", from_position := some 0 }).2 = [Effect.fullTeardown]
    ∧ (_handleWebsocketDelete exampleContainer
        { mode := "my_devices", from_position := some 0 }).1.isDestroyed = true := by
  exact ⟨rfl, rfl⟩

/-- C7 (amended): for a server-pushed delete, if the mode is `my_devices` and
a *nonzero* `from_position` cursor is provided, the handler requests a partial
purge at that position from the client and does not tear the entity down; for
every other combination (other mode, no position, or position `0`) it performs
the full local teardown. -/
theorem c7_websocket_delete (st : Container) (data : WebsocketDeleteData) :
    (∀ n : Nat, data.mode = DELETION_MODE_MY_DEVICES → data.from_position = some n →
      n ≠ 0 →
      _handleWebsocketDelete st data = (st, [Effect.purgeMessages st.id n]))
    ∧ (data.mode ≠ DELETION_MODE_MY_DEVICES ∨ data.from_position = none ∨
        data.from_position = some 0 →
      _handleWebsocketDelete st data
        = ({ st with isDestroyed := true }, [Effect.fullTeardown])) := by
  constructor
  · intro n hmode hpos hn
    simp [_handleWebsocketDelete, hmode, hpos, truthyPosition, hn]
  · intro h
    rcases h with h | h | h
    · simp [_handleWebsocketDelete, superHandleWebsocketDelete, h]
    · simp [_handleWebsocketDelete, superHandleWebsocketDelete, h, truthyPosition]
    · simp [_handleWebsocketDelete, superHandleWebsocketDelete, h, truthyPosition]

/-- Witness for C7 at mode `my_devices` with cursor 42 (partial purge) and at
mode `all_participants` with no cursor (full teardown). -/
theorem c7_websocket_delete_witness :
    _handleWebsocketDelete exampleContainer
        { mode := "my_devices", from_position := some 42 }
      = (exampleContainer, [Effect.purgeMessages exampleContainer.id 42])
    ∧ _handleWebsocketDelete exampleContainer
        { mode := "all_participants", from_position := none }
      = ({ exampleContainer with isDestroyed := true }, [Effect.fullTeardown]) := by
  constructor
  · exact (c7_websocket_delete exampleContainer
      { mode := "my_devices", from_position := some 42 }).1 42 rfl rfl (by decide)
  · exact (c7_websocket_delete exampleContainer
      { mode := "all_participants", from_position := none }).2 (Or.inl (by decide))

/-- C9 counterexample: a `NEW` entity with `createdAt` already set to 5 gets it
overwritten to the current time 7 by `send()` — `send` sets `createdAt`
unconditionally on the `NEW` path, not only when unset. -/
theorem c9_counterexample :
    exampleNewContainer.createdAt = some 5
    ∧ (send exampleNewContainer 7 false).1.createdAt = some 7
    ∧ (some 7 : Option Nat) ≠ some 5 := by
  exact ⟨rfl, rfl, by decide⟩

/-- C9 (amended): `send()` on a `NEW` entity always sets `createdAt` to the
current time, overwriting any previously set value; on an entity not in the
`NEW` state, `send()` (without a message attachment) performs no mutation,
issues no create request and emits no notification. -/
theorem c9_send_createdAt (st : Container) (now : Nat) (msg : Bool) :
    (st.syncState = SyncState.NEW → (send st now msg).1.createdAt = some now)
    ∧ (st.syncState ≠ SyncState.NEW → send st now false = (st, [])) := by
  constructor
  · intro h
    cases msg <;> simp [send, isNew, h, _setSyncing]
  · intro h
    simp [send, isNew, h]

/-- Witness for C9: `send` at time 7 on a `NEW` container and on a `SYNCED`
container. -/
theorem c9_send_createdAt_witness :
    (send exampleNewContainer 7 false).1.createdAt = some 7
    ∧ send exampleSyncedContainer 7 false = (exampleSyncedContainer, []) := by
  constructor
  · exact (c9_send_createdAt exampleNewContainer 7 false).1 rfl
  · exact (c9_send_createdAt exampleSyncedContainer 7 false).2 (by decide)

/-- C4 counterexample: on a destroyed entity, create-result processing still
emits the state-change ended notification (the claim demands no notification at
all), and the `deleteMetadataProperties` request-failure callback still
triggers a reload (the claim demands no reload). -/
theorem c4_counterexample :
    (_createResult exampleDestroyedContainer
        { success := true, data := { id := "layer:///conversations/c1" } }).2
      = [Effect.stateChange false "send_conversations" "send_conversations_time"
          "layer:///conversations/c1"]
    ∧ (deleteMetadataPropertiesCallback exampleDestroyedContainer
        { success := false, data := { id := "not_found" } }).2 = [Effect.load] := by
  exact ⟨rfl, rfl⟩

/-- C4 (amended): on an entity whose `isDestroyed` flag is true,
`setMetadataProperties`, `deleteMetadataProperties` and the
`setMetadataProperties` request-failure callback are silent no-ops;
create-result processing performs no mutation and emits nothing beyond the
state-change ended notification that closes every create result; the
`deleteMetadataProperties` request-failure callback, which lacks the destroyed
guard its `setMetadataProperties` sibling has, still triggers a reload on a
non-authentication failure. -/
theorem c4_destroyed_guard (st : Container) (h : st.isDestroyed = true) :
    (∀ r : CreateResult,
      (_createResult st r).1 = st
      ∧ (_createResult st r).2
          = [Effect.stateChange false ("send_" ++ typeFromID st.id)
              ("send_" ++ typeFromID st.id ++ "_time") st.id])
    ∧ (∀ props, setMetadataProperties st props = (st, []))
    ∧ (∀ paths, deleteMetadataProperties st paths = (st, []))
    ∧ (∀ r, setMetadataPropertiesCallback st r = (st, []))
    ∧ (∀ r, deleteMetadataPropertiesCallback st r
        = (st, if !r.success && (r.data.id != "authentication_required")
               then [Effect.load] else [])) := by
  refine ⟨?_, ?_, ?_, ?_, ?_⟩
  · intro r
    constructor <;> simp [_createResult, h]
  · intro props
    simp [setMetadataProperties, h]
  · intro paths
    simp [deleteMetadataProperties, h]
  · intro r
    simp [setMetadataPropertiesCallback, h]
  · intro r
    cases hr : (!r.success && (r.data.id != "authentication_required")) <;>
      simp [deleteMetadataPropertiesCallback, _load, hr]

/-- Witness for C4 (amended) at a concrete destroyed container. -/
theorem c4_destroyed_guard_witness :
    setMetadataProperties exampleDestroyedContainer [("title", JValue.str "x")]
      = (exampleDestroyedContainer, [])
    ∧ (_createResult exampleDestroyedContainer
        { success := false, data := { id := "not_found" } }).1
      = exampleDestroyedContainer := by
  constructor
  · exact (c4_destroyed_guard exampleDestroyedContainer rfl).2.1 _
  · exact ((c4_destroyed_guard exampleDestroyedContainer rfl).1 _).1

/-- C3: processing a create result with `success = false` and a non-conflict
error on a live entity makes the entity emit — after the state-change ended
event that closes every create result (C6) — exactly the `…:sent-error` event
carrying the error payload, followed by the destruction of the entity, and
nothing else. -/
theorem c3_create_failure (st : Container) (data : SData)
    (hnd : st.isDestroyed = false) (hnc : data.id ≠ "conflict") :
    _createResult st { success := false, data := data }
      = ({ st with _toObject := none, isDestroyed := true },
         [Effect.stateChange false ("send_" ++ typeFromID st.id)
            ("send_" ++ typeFromID st.id ++ "_time") st.id,
          Effect.sentError data, Effect.destroyed]) := by
  simp [_createResult, hnd, hnc, trigger, _clearObject, destroy]

/-- Witness for C3 at a concrete live container and a `not_found` error. -/
theorem c3_create_failure_witness :
    (_createResult exampleContainer
        { success := false, data := { id := "not_found" } }).2
      = [Effect.stateChange false "send_conversations" "send_conversations_time"
          "layer:///conversations/c1",
         Effect.sentError { id := "not_found" }, Effect.destroyed] := by
  rw [c3_create_failure exampleContainer { id := "not_found" } rfl (by decide)]
  rfl

theorem createResult_success_trace (st : Container) (data : SData)
    (hnd : st.isDestroyed = false) :
    (_createResult st { success := true, data := data }).2
      = Effect.stateChange false ("send_" ++ typeFromID st.id)
          ("send_" ++ typeFromID st.id ++ "_time") st.id
        :: ((if st.id ≠ data.id then
              [Effect.updateContainerId st.id data.id, Effect.idChange st.id data.id]
             else [])
          ++ (if st._inLayerParser = false
                ∧ stringify data.metadata ≠ stringify st.metadata then
                [Effect.metadataChange data.metadata st.metadata none]
              else [])
          ++ [Effect.sent (if st.id = data.id then CREATED else FOUND)]) := by
  by_cases hid : st.id = data.id <;>
    cases hlp : st._inLayerParser <;>
      by_cases hm : stringify data.metadata = stringify st.metadata <;>
        simp [_createResult, _createSuccess, _populateFromServer, _setSynced,
          assignMetadata, __updateMetadata, _triggerAsync, _clearObject,
          hnd, hid, hlp, hm]

/-- C1: for every successful create result on a live entity, the outcome tag
carried by the `…:sent` completion is `CREATED` exactly when the
server-returned id equals the entity's id before reconciliation, and one of
`FOUND`/`FOUND_WITHOUT_REQUESTED_METADATA` (concretely `FOUND`; the mismatch
distinction is the caller's) when the id changed; in particular a result whose
data carries the local id yields `CREATED`. -/
theorem c1_create_outcome (st : Container) (data : SData)
    (hnd : st.isDestroyed = false) :
    (sentResult? (_createResult st { success := true, data := data }).2 = some CREATED
      ↔ data.id = st.id)
    ∧ (data.id ≠ st.id →
        sentResult? (_createResult st { success := true, data := data }).2 = some FOUND
        ∨ sentResult? (_createResult st { success := true, data := data }).2
            = some FOUND_WITHOUT_REQUESTED_METADATA)
    ∧ (data.id = st.id →
        sentResult? (_createResult st { success := true, data := data }).2
          = some CREATED) := by
  have key : sentResult? (_createResult st { success := true, data := data }).2
      = some (if st.id = data.id then CREATED else FOUND) := by
    rw [createResult_success_trace st data hnd]
    by_cases hid : st.id = data.id <;>
      by_cases hm : st._inLayerParser = false
          ∧ stringify data.metadata ≠ stringify st.metadata <;>
        simp [sentResult?, List.findSome?_cons, hid, hm]
  refine ⟨⟨?_, ?_⟩, ?_, ?_⟩
  · intro hs
    by_contra hne
    rw [key, if_neg (fun hh => hne hh.symm)] at hs
    have heq : FOUND = CREATED := Option.some.inj hs
    exact absurd heq (by decide)
  · intro he
    rw [key, if_pos he.symm]
  · intro hne
    left
    rw [key, if_neg (fun hh => hne hh.symm)]
  · intro he
    rw [key, if_pos he.symm]

/-- Witness for C1: a success result returning the local id yields `CREATED`;
one returning a different id yields `FOUND`. -/
theorem c1_create_outcome_witness :
    sentResult? (_createResult exampleContainer
        { success := true, data := { id := "layer:///conversations/c1" } }).2
      = some CREATED
    ∧ (sentResult? (_createResult exampleContainer
          { success := true, data := { id := "layer:///conversations/s9" } }).2
        = some FOUND
      ∨ sentResult? (_createResult exampleContainer
          { success := true, data := { id := "layer:///conversations/s9" } }).2
        = some FOUND_WITHOUT_REQUESTED_METADATA) := by
  constructor
  · exact (c1_create_outcome exampleContainer
      { id := "layer:///conversations/c1" } rfl).2.2 (by decide)
  · exact (c1_create_outcome exampleContainer
      { id := "layer:///conversations/s9" } rfl).2.1 (by decide)

/-- C2: when a successful create result on a live entity remaps the id, the
registry identity-remap call and the `id`-property change event both occur
strictly before the `…:sent` completion in the emission trace (and the
completion does occur). -/
theorem c2_remap_before_sent (st : Container) (data : SData)
    (hnd : st.isDestroyed = false) (hid : data.id ≠ st.id) :
    ((_createResult st { success := true, data := data }).2).findIdx isRemapEffect
        < ((_createResult st { success := true, data := data }).2).findIdx isSentEffect
    ∧ ((_createResult st { success := true, data := data }).2).findIdx isIdChangeEffect
        < ((_createResult st { success := true, data := data }).2).findIdx isSentEffect
    ∧ ((_createResult st { success := true, data := data }).2).findIdx isSentEffect
        < ((_createResult st { success := true, data := data }).2).length := by
  rw [createResult_success_trace st data hnd]
  have hid' : st.id ≠ data.id := fun h => hid h.symm
  by_cases hm : st._inLayerParser = false
      ∧ stringify data.metadata ≠ stringify st.metadata <;>
    simp [hid', hm, List.findIdx_cons, isRemapEffect, isIdChangeEffect, isSentEffect]

/-- Witness for C2 at a concrete id-changing success result. -/
theorem c2_remap_before_sent_witness :
    ((_createResult exampleContainer
        { success := true, data := { id := "layer:///conversations/s9" } }).2).findIdx
          isRemapEffect
      < ((_createResult exampleContainer
        { success := true, data := { id := "layer:///conversations/s9" } }).2).findIdx
          isSentEffect := by
  exact (c2_remap_before_sent exampleContainer
    { id := "layer:///conversations/s9" } rfl (by decide)).1

theorem createResult_trace_head (st : Container) (r : CreateResult) :
    ∃ rest, (_createResult st r).2
      = Effect.stateChange false ("send_" ++ typeFromID st.id)
          ("send_" ++ typeFromID st.id ++ "_time") st.id :: rest := by
  by_cases h1 : st.isDestroyed
  · exact ⟨[], by simp [_createResult, h1]⟩
  · by_cases h2 : r.success
    · exact ⟨(_createSuccess st r.data).2, by simp [_createResult, h1, h2]⟩
    · by_cases h3 : r.data.id = "conflict"
      · exact ⟨(_createResultConflict st r.data).2,
          by simp [_createResult, h1, h2, h3]⟩
      · exact ⟨(trigger st (Effect.sentError r.data)).2
            ++ (destroy (trigger st (Effect.sentError r.data)).1).2,
          by simp [_createResult, h1, h2, h3]⟩

/-- C6: for every create result following a `send()` from the `NEW` state, the
result processing emits the state-change ended event first, before any other
of its effects, with the same type/id correlation as the started event that
`send()` emitted; started strictly precedes ended in the combined emission
trace, and the ended event is present for every result, success or failure. -/
theorem c6_state_change_pairing (st : Container) (now : Nat) (r : CreateResult)
    (hnew : st.syncState = SyncState.NEW) :
    ((_createResult (send st now false).1 r).2).head?
      = some (Effect.stateChange false ("send_" ++ typeFromID st.id)
          ("send_" ++ typeFromID st.id ++ "_time") st.id)
    ∧ ((send st now false).2).head?
      = some (Effect.stateChange true ("send_" ++ typeFromID st.id)
          ("send_" ++ typeFromID st.id ++ "_time") st.id)
    ∧ ((send st now false).2 ++ (_createResult (send st now false).1 r).2).findIdx
          isStartedStateChange
      < ((send st now false).2 ++ (_createResult (send st now false).1 r).2).findIdx
          isEndedStateChange
    ∧ ((send st now false).2 ++ (_createResult (send st now false).1 r).2).findIdx
          isEndedStateChange
      < ((send st now false).2 ++ (_createResult (send st now false).1 r).2).length := by
  have hsend : send st now false
      = (_setSyncing { st with createdAt := some now },
         [Effect.stateChange true ("send_" ++ typeFromID st.id)
            ("send_" ++ typeFromID st.id ++ "_time") st.id,
          Effect.socketRequest "POST" st.id st.id]) := by
    simp [send, isNew, hnew, _setSyncing]
  have hid1 : (send st now false).1.id = st.id := by
    rw [hsend]
    rfl
  obtain ⟨rest, hrest⟩ := createResult_trace_head (send st now false).1 r
  rw [hid1] at hrest
  refine ⟨?_, ?_, ?_, ?_⟩
  · rw [hrest]
    rfl
  · rw [hsend]
    rfl
  · rw [hrest, hsend]
    simp [List.findIdx_cons, isStartedStateChange, isEndedStateChange]
  · rw [hrest, hsend]
    simp [List.findIdx_cons, isStartedStateChange, isEndedStateChange,
      List.length_cons]

/-- Witness for C6: `send` from `NEW` followed by a failing create result. -/
theorem c6_state_change_pairing_witness :
    ((send exampleContainer 3 false).2
        ++ (_createResult (send exampleContainer 3 false).1
            { success := false, data := { id := "not_found" } }).2).findIdx
          isStartedStateChange
      < ((send exampleContainer 3 false).2
        ++ (_createResult (send exampleContainer 3 false).1
            { success := false, data := { id := "not_found" } }).2).findIdx
          isEndedStateChange := by
  exact (c6_state_change_pairing exampleContainer 3
    { success := false, data := { id := "not_found" } } rfl).2.2.1

/-- C8 counterexample: for a pushed patch whose first path is `"metadatafoo"`
— whose first dot-segment is not `"metadata"` — the handler still emits the
`metadata` change notification, because the code tests
`paths[0].indexOf('metadata') === 0` (a substring-prefix test), not
first-segment equality. -/
theorem c8_counterexample :
    ((splitChars '.' "metadatafoo".data).map String.mk).headD "" ≠ "metadata"
    ∧ (_handlePatchEvent exampleContainer (JValue.str "b") (JValue.str "a")
        ["metadatafoo"]).2
      = [Effect.metadataChange (JValue.str "b") (JValue.str "a")
          (some ["metadatafoo"])] := by
  exact ⟨by decide, rfl⟩

/-- C8 (amended): with the parser suppression flag clear, a server-pushed
patch emits the `metadata` change notification — carrying `newValue`,
`oldValue` and the raw path list — if and only if the first path *starts
with* the substring `"metadata"` and the JSON-serialized old and new values
differ; when the serialized values are equal the handler is a silent no-op. -/
theorem c8_patch_event (st : Container) (newValue oldValue : JValue)
    (paths : List String) (hlp : st._inLayerParser = false) :
    ((_handlePatchEvent st newValue oldValue paths).2
        = [Effect.metadataChange newValue oldValue (some paths)]
      ↔ strStartsWith "metadata" (paths.headD "") = true
        ∧ stringify newValue ≠ stringify oldValue)
    ∧ (stringify newValue = stringify oldValue →
        _handlePatchEvent st newValue oldValue paths = (st, [])) := by
  cases hb1 : strStartsWith "metadata" (paths.headD "") <;>
    by_cases hb2 : stringify newValue = stringify oldValue <;>
      rw [List.headD_eq_head?] at hb1 <;>
      simp [_handlePatchEvent, __updateMetadata, _triggerAsync, _clearObject,
        hlp, hb1, hb2]

/-- Witness for C8: a differing value under path `"metadata.title"` emits the
notification; an identical value is a no-op. -/
theorem c8_patch_event_witness :
    (_handlePatchEvent exampleContainer (JValue.str "b") (JValue.str "a")
        ["metadata.title"]).2
      = [Effect.metadataChange (JValue.str "b") (JValue.str "a")
          (some ["metadata.title"])]
    ∧ _handlePatchEvent exampleContainer (JValue.str "a") (JValue.str "a")
        ["metadata.title"]
      = (exampleContainer, []) := by
  constructor
  · exact ((c8_patch_event exampleContainer (JValue.str "b") (JValue.str "a")
      ["metadata.title"] rfl).1).mpr ⟨by decide, by decide⟩
  · exact (c8_patch_event exampleContainer (JValue.str "a") (JValue.str "a")
      ["metadata.title"] rfl).2 rfl

theorem toObject_none (st : Container) (h : st._toObject = none) :
    toObject st = (freshPojo st,
      { st with
        _toObject := some (freshPojo st),
        allocCounter := st.allocCounter + 2 }) := by
  simp [toObject, h]

theorem toObject_some (st : Container) (o : Pojo) (h : st._toObject = some o) :
    toObject st = (o, st) := by
  simp [toObject, h]

/-- C10: `toObject()` returns the cached object again when no event fired in
between; both the synchronous and the deferred trigger path invalidate the
cache; after an event the next `toObject()` builds a fresh object (new
identity) whose `metadata` is a deep copy of the current metadata held in a
distinct heap object, so that writing through the returned copy's metadata
never changes the entity's metadata. -/
theorem c10_toObject_cache (st : Container) (e : Effect)
    (hwf : st.metadataSerial < st.allocCounter
      ∧ ∀ o, st._toObject = some o →
          o.serial < st.allocCounter ∧ o.metadataSerial < st.allocCounter) :
    ((toObject (toObject st).2).1 = (toObject st).1
      ∧ (toObject (toObject st).2).2 = (toObject st).2)
    ∧ (((trigger st e).1)._toObject = none
      ∧ ((_triggerAsync st e).1)._toObject = none)
    ∧ ((toObject ((_triggerAsync (toObject st).2 e).1)).1.metadata
          = ((_triggerAsync (toObject st).2 e).1).metadata
      ∧ (toObject ((_triggerAsync (toObject st).2 e).1)).1.serial
          ≠ (toObject st).1.serial
      ∧ (toObject ((_triggerAsync (toObject st).2 e).1)).1.metadataSerial
          ≠ ((_triggerAsync (toObject st).2 e).1).metadataSerial
      ∧ ∀ v, (writeAtSerial (toObject ((_triggerAsync (toObject st).2 e).1)).2
                (toObject ((_triggerAsync (toObject st).2 e).1)).1.metadataSerial
                v).metadata
          = (toObject ((_triggerAsync (toObject st).2 e).1)).2.metadata) := by
  obtain ⟨h1, h2⟩ := hwf
  obtain ⟨cid, curl, ccreated, cmeta, cms, css, cdes, cilp, cto, cac⟩ := st
  dsimp only at h1 h2 ⊢
  cases cto with
  | none =>
      dsimp only [toObject, freshPojo, writeAtSerial, trigger, _triggerAsync,
        _clearObject]
      refine ⟨⟨rfl, rfl⟩, ⟨rfl, rfl⟩, rfl, by omega, by omega, ?_⟩
      intro v
      rw [if_neg (show ¬(cac + 2 + 1 = cms) from by omega)]
  | some o =>
      obtain ⟨ho1, ho2⟩ := h2 o rfl
      dsimp only [toObject, freshPojo, writeAtSerial, trigger, _triggerAsync,
        _clearObject]
      refine ⟨⟨rfl, rfl⟩, ⟨rfl, rfl⟩, rfl, by omega, by omega, ?_⟩
      intro v
      rw [if_neg (show ¬(cac + 1 = cms) from by omega)]

/-- Witness for C10 at a concrete container with an empty cache. -/
theorem c10_toObject_cache_witness :
    (toObject (toObject exampleContainer).2).1 = (toObject exampleContainer).1
    ∧ ((_triggerAsync exampleContainer Effect.load).1)._toObject = none := by
  have h := c10_toObject_cache exampleContainer Effect.load
    ⟨by decide, by intro o ho; simp [exampleContainer] at ho⟩
  exact ⟨h.1.1, h.2.1.2⟩


end Layer
